import Mathlib

/-!
# Verification of the BBC weather scraper

A shallow embedding of `src/services/BBCWeatherScraper.ts` and the duplicate
implementations in `src/index.ts` and the standalone `getCairoWeather` module.

JavaScript strings are modelled as `List Char` (every character appearing in
the program's data is in the basic multilingual plane, so one JS UTF-16 code
unit corresponds to one `Char`).  The JS string operations used by the source
(`trim`, `split`, `slice`) are given executable models below.  The cheerio
document is modelled at the parsed level: a `Doc` records the text of the
location-name element (when present) and the list of day items of the
carousel, each day item recording the text of its three addressed
sub-elements (when present); `cheerio.load` itself is a total function from
markup text to such a document and is kept abstract (a parameter of the
orchestration-level theorems).
-/

/-- A JavaScript string, as a sequence of UTF-16 code units (here: `Char`s). -/
abbrev Str := List Char

/-- Model of `String.prototype.trim`: remove whitespace from both ends. -/
def jsTrim (s : Str) : Str :=
  ((s.dropWhile Char.isWhitespace).reverse.dropWhile Char.isWhitespace).reverse

/-- Index of the first occurrence of `sep` in `s` (model of `indexOf`,
used to define `split`). -/
def sepIdx (sep : Str) : Str → Option Nat
  | [] => none
  | c :: rest =>
    if sep.isPrefixOf (c :: rest) then some 0
    else (sepIdx sep rest).map (· + 1)

/-- Fuel-indexed worker for `jsSplit`; `s.length` fuel always suffices
because each step consumes at least one character of a non-empty separator
occurrence. -/
def splitGo (sep : Str) : Nat → Str → List Str
  | 0, s => [s]
  | fuel + 1, s =>
    match sepIdx sep s with
    | none => [s]
    | some n => s.take n :: splitGo sep fuel (s.drop (n + sep.length))

/-- Model of `String.prototype.split(sep)` for a separator string `sep`.
For the empty separator JS splits into single characters; the source only
ever splits on `" - "`. -/
def jsSplit (sep s : Str) : List Str :=
  if sep = [] then s.map (fun c => [c]) else splitGo sep s.length s

/-- The literal separator `" - "` used by the city-name extraction. -/
def dashSep : Str := [' ', '-', ' ']

/-- `WeatherCondition` of `BBCWeatherScraper.ts` (structurally identical to
`TDayDetails` of the `getCairoWeather` module). -/
structure WeatherCondition where
  day : Str
  shortForecast : Str
  temperature : Str
  highTemp : Str
  lowTemp : Str
  deriving DecidableEq, Repr

/-- `CityWeatherReport` of `BBCWeatherScraper.ts` (structurally identical to
`TCityData` of the `getCairoWeather` module). -/
structure CityWeatherReport where
  city : Str
  weekList : List WeatherCondition
  deriving DecidableEq, Repr

/-- One `li` item of the day carousel, at the parsed level: the text content
of the three sub-elements addressed by the index-qualified selectors
(`a#daylink-i div.wr-day__title`, the description, the temperature span),
`none` when the sub-element is absent. -/
structure DayItem where
  title : Option Str
  description : Option Str
  temp : Option Str
  deriving DecidableEq, Repr

/-- A cheerio document, at the parsed level: the text of
`#wr-location-name-id` (`none` when the element is absent) and the day items
of `ol.wr-day-carousel__list li` in document order. -/
structure Doc where
  locationName : Option Str
  dayItems : List DayItem
  deriving DecidableEq, Repr

/-- `$(sel).text().trim()`: an absent element has empty text, a present one
contributes its text, then the result is trimmed. -/
def textOf (o : Option Str) : Str := jsTrim (o.getD [])

/-- `BBCWeatherScraper.parseTemperature`: split the raw temperature token
into high/low.  `tempText.slice(0, 3)` is `take 3`, `tempText.slice(3)` is
`drop 3`, and `x || y` on strings picks `y` exactly when `x` is empty. -/
def parseTemperature (tempText : Str) (index : Nat) : Str × Str :=
  if tempText = [] then ([], [])
  else if index = 0 then
    (tempText.take 3, tempText.take 3)
  else
    (tempText.take 3,
      if tempText.drop 3 = [] then tempText.take 3 else tempText.drop 3)

/-- `BBCWeatherScraper.extractDayDetails`: the three trimmed texts plus the
temperature decomposition. -/
def extractDayDetails (item : DayItem) (index : Nat) : WeatherCondition :=
  let day := textOf item.title
  let shortForecast := textOf item.description
  let temperature := textOf item.temp
  let hl := parseTemperature temperature index
  ⟨day, shortForecast, temperature, hl.1, hl.2⟩

/-- The cheerio `.map((index, element) => ...)` of `extractWeeklyForecast`:
each item is mapped with its 0-based position, items at position `≥ 7` map
to `null` (here `none`). -/
def weekMap : Nat → List DayItem → List (Option WeatherCondition)
  | _, [] => []
  | i, item :: rest =>
    (if 7 ≤ i then none else some (extractDayDetails item i)) :: weekMap (i + 1) rest

/-- `BBCWeatherScraper.extractWeeklyForecast`: map with index, then
`.get().filter(day => day !== null)` keeps exactly the non-null results. -/
def extractWeeklyForecast (doc : Doc) : List WeatherCondition :=
  (weekMap 0 doc.dayItems).filterMap id

/-- Closed form used to state what the truncation keeps: the day details of
a list of items, indexed from `i`, with no truncation. -/
def dayDetailsFrom : Nat → List DayItem → List WeatherCondition
  | _, [] => []
  | i, item :: rest => extractDayDetails item i :: dayDetailsFrom (i + 1) rest

/-- `BBCWeatherScraper.extractCityName`:
`fullLocationText.split(' - ')[0] || fullLocationText`. -/
def extractCityName (doc : Doc) : Str :=
  let fullLocationText := textOf doc.locationName
  let first := (jsSplit dashSep fullLocationText).headD []
  if first = [] then fullLocationText else first

/-- `BBCWeatherScraper.parseWeatherData`, from the parsed document. -/
def parseWeatherData (doc : Doc) : CityWeatherReport :=
  ⟨extractCityName doc, extractWeeklyForecast doc⟩

/-! ## The duplicate extraction inside `getCairoWeather` -/

/-- The per-item body of the `.map` inside `getCairoWeather`: the details
record is built with empty `highTemp`/`lowTemp`, then overwritten when the
temperature token is non-empty. -/
def cairoDayDetails (item : DayItem) (i : Nat) : WeatherCondition :=
  let tempText := textOf item.temp
  let base : WeatherCondition :=
    ⟨textOf item.title, textOf item.description, tempText, [], []⟩
  if tempText = [] then base
  else
    let high := tempText.take 3
    let low :=
      if i = 0 then high
      else if tempText.drop 3 = [] then high else tempText.drop 3
    { base with highTemp := high, lowTemp := low }

/-- The `.map((i, elem) => ...)` of `getCairoWeather`, with the same
`if (i >= 7) return null` truncation. -/
def cairoWeekMap : Nat → List DayItem → List (Option WeatherCondition)
  | _, [] => []
  | i, item :: rest =>
    (if 7 ≤ i then none else some (cairoDayDetails item i)) :: cairoWeekMap (i + 1) rest

/-- The extraction performed inline by `getCairoWeather`:
`$('#wr-location-name-id').text().trim().split(' - ')[0]` for the city
(no `|| fullLocationText` fallback in this copy), and the mapped, filtered
week list. -/
def cairoExtract (doc : Doc) : CityWeatherReport :=
  ⟨(jsSplit dashSep (textOf doc.locationName)).headD [],
    (cairoWeekMap 0 doc.dayItems).filterMap id⟩

/-! ## Fetcher and orchestration layer -/

/-- A JavaScript runtime error value, classified the way `handleError`
distinguishes errors: an axios transport error, an ordinary `Error`
(e.g. a `TypeError` from a property access on `undefined`), or anything
else. -/
inductive JsError where
  | axios (msg : String)
  | error (msg : String)
  | other
  deriving DecidableEq, Repr

/-- Base URL (`BBC_WEATHER_BASE_URL` / `urlBBC`). -/
def BBC_WEATHER_BASE_URL : String := "https://www.bbc.com/weather/"

/-- The `CITIES` table, reproduced verbatim. -/
def CITIES : List (String × String) :=
  [("cairo", "360630"),
   ("mecca", "104515"),
   ("abuDhabi", "292968"),
   ("london", "2643743"),
   ("newYork", "5128581"),
   ("brasilia", "3469058")]

/-- Runtime property lookup `CITIES[cityCode]`: `some code` for a key of the
table, `none` (JS `undefined`) otherwise. -/
def cityCode (k : String) : Option String := CITIES.lookup k

/-- The template literal `` `${BBC_WEATHER_BASE_URL}${CITIES[cityCode]}` ``:
a JS `undefined` interpolates as the text `"undefined"`. -/
def buildUrl (k : String) : String :=
  BBC_WEATHER_BASE_URL ++ (match cityCode k with
    | some code => code
    | none => "undefined")

/-- `handleError`: the console line it emits for each kind of error. -/
def handleError : JsError → String
  | .axios m => "Network Error: " ++ m
  | .error m => "Parsing Error: " ++ m
  | .other => "Unknown Error:"

/-- The transport (`axios.get`): for a URL, either the response body text or
a thrown error.  External collaborator, kept abstract. -/
abbrev Transport := String → Except JsError String

/-- `BBCWeatherScraper.fetchCityWeather`, over the runtime semantics:
build the URL, issue exactly one transport call, parse the body on success;
on failure log via `handleError` and rethrow the same error.  The result
records `(outcome, console lines, requested URLs)`; `load` models
`cheerio.load` (total, abstract). -/
def fetchCityWeather (load : String → Doc) (transport : Transport)
    (k : String) : Except JsError CityWeatherReport × List String × List String :=
  let url := buildUrl k
  match transport url with
  | .ok body => (.ok (parseWeatherData (load body)), [], [url])
  | .error e => (.error e, [handleError e], [url])

/-- The console line `Failed to fetch weather for ${cityCode}:` of the
`catch` block of `logWeatherForCity`. -/
def failedLine (k : String) : String := "Failed to fetch weather for " ++ k ++ ":"

/-- The `console.log('Weather Report:', ...)` line (the JSON rendering is
irrelevant to the claims; the line is identified by its report). -/
def reportLine (_r : CityWeatherReport) : String := "Weather Report:"

/-- The formatted summary template of `logWeatherForCity` (city plus first
day's forecast and high/low). -/
def summaryLine (city : Str) (d : WeatherCondition) : String :=
  "City: " ++ String.mk city ++ " Forecast: " ++ String.mk d.shortForecast
    ++ " High: " ++ String.mk d.highTemp ++ "°C Low: " ++ String.mk d.lowTemp ++ "°C"

/-- `logWeatherForCity` (identical in `BBCWeatherScraper.ts` and
`index.ts`): fetch, log the report, then read `weekList[0]`.  When
`weekList` is empty, `weekList[0]` is `undefined` and the access
`firstDay.shortForecast` throws a `TypeError`, which the `catch` block
swallows after logging; on a fetch error the `catch` block likewise logs
and swallows.  The function therefore always resolves; the model returns
`(resolution, console lines)`. -/
def logWeatherForCity (load : String → Doc) (transport : Transport)
    (k : String) : Except JsError Unit × List String :=
  match fetchCityWeather load transport k with
  | (.error _, logs, _) => (.ok (), logs ++ [failedLine k])
  | (.ok report, logs, _) =>
    match report.weekList with
    | [] => (.ok (), logs ++ [reportLine report, failedLine k])
    | d :: _ => (.ok (), logs ++ [reportLine report, summaryLine report.city d])

/-- The two `console.log` lines of `getCairoWeather` on its success path. -/
def cairoLogLines (details : CityWeatherReport) (d : WeatherCondition) : List String :=
  ["City: " ++ String.mk details.city ++ " " ++ String.mk d.highTemp,
   "Hight: " ++ String.mk d.highTemp ++ " Low: " ++ String.mk d.lowTemp]

/-- `getCairoWeather`: fetches the fixed Abu Dhabi URL, extracts inline,
then logs `details.weekList[0].highTemp`.  When `weekList` is empty that
access throws a `TypeError`, the `catch` block logs `"ERROR"` and the
function returns `undefined` (`none`); the same `catch` swallows transport
errors.  Result: `(value-or-undefined, console lines)`. -/
def getCairoWeather (load : String → Doc) (transport : Transport) :
    Option CityWeatherReport × List String :=
  match transport (BBC_WEATHER_BASE_URL ++ "292968") with
  | .error _ => (none, ["ERROR"])
  | .ok body =>
    let details := cairoExtract (load body)
    match details.weekList with
    | [] => (none, ["ERROR"])
    | d :: _ => (some details, cairoLogLines details d)

/-! ## Concrete fixtures used by witnesses -/

/-- A well-formed day item of the fixture markup. -/
def fixtureItem : DayItem := ⟨some "Today".data, some "Sunny".data, some "18°11°".data⟩

/-- A fixture document with a location-name element and one day item. -/
def fixtureDoc : Doc := ⟨some "Cairo - Weather".data, [fixtureItem]⟩

/-- A fixture document with ten day items. -/
def fixtureDoc10 : Doc := ⟨some "Cairo - Weather".data, List.replicate 10 fixtureItem⟩

/-- A fixture document with no location-name element and no day items. -/
def fixtureDocEmpty : Doc := ⟨none, []⟩

/-- The extracted first entry of `fixtureDoc`. -/
def fixtureEntry : WeatherCondition := extractDayDetails fixtureItem 0

/-- A `cheerio.load` model whose documents have no forecast day items. -/
def fixtureLoadEmpty : String → Doc := fun _ => ⟨some "Abu Dhabi - Weather".data, []⟩

/-- A transport that fails every request with a connection-refused error. -/
def failTransport : Transport := fun _ => .error (.axios "ECONNREFUSED")

/-- A transport that answers every request with the body `"page"`. -/
def okTransport : Transport := fun _ => .ok "page"

/-! ## Helper lemmas -/

theorem dropWhile_head_not (p : Char → Bool) :
    ∀ (l : Str) (c : Char) (r : Str), l.dropWhile p = c :: r → p c = false := by
  intro l
  induction l with
  | nil => intro c r h; simp at h
  | cons a l ih =>
    intro c r h
    by_cases hp : p a
    · rw [List.dropWhile_cons_of_pos hp] at h
      exact ih c r h
    · rw [List.dropWhile_cons_of_neg hp] at h
      cases h
      simpa using hp

theorem dropWhile_exists_append (p : Char → Bool) :
    ∀ (l : Str), ∃ t, t ++ l.dropWhile p = l := by
  intro l
  induction l with
  | nil => exact ⟨[], rfl⟩
  | cons a l ih =>
    by_cases hp : p a
    · obtain ⟨t, ht⟩ := ih
      exact ⟨a :: t, by rw [List.dropWhile_cons_of_pos hp, List.cons_append, ht]⟩
    · exact ⟨[], by rw [List.dropWhile_cons_of_neg hp, List.nil_append]⟩

theorem jsTrim_head_not_ws (s : Str) (c : Char) (r : Str)
    (h : jsTrim s = c :: r) : c.isWhitespace = false := by
  unfold jsTrim at h
  obtain ⟨t, ht⟩ :=
    dropWhile_exists_append Char.isWhitespace (s.dropWhile Char.isWhitespace).reverse
  have hl : s.dropWhile Char.isWhitespace = c :: (r ++ t.reverse) := by
    have h2 : s.dropWhile Char.isWhitespace
        = ((s.dropWhile Char.isWhitespace).reverse.dropWhile Char.isWhitespace).reverse
          ++ t.reverse := by
      conv_lhs => rw [← List.reverse_reverse (s.dropWhile Char.isWhitespace), ← ht]
      rw [List.reverse_append]
    rw [h2, h, List.cons_append]
  exact dropWhile_head_not Char.isWhitespace s c (r ++ t.reverse) hl

theorem isPrefixOf_exists : ∀ (p l : Str), p.isPrefixOf l = true → ∃ t, p ++ t = l
  | [], l, _ => ⟨l, rfl⟩
  | _ :: _, [], h => by simp [List.isPrefixOf] at h
  | a :: p, b :: l, h => by
    simp only [List.isPrefixOf, Bool.and_eq_true, beq_iff_eq] at h
    obtain ⟨hab, h2⟩ := h
    obtain ⟨t, ht⟩ := isPrefixOf_exists p l h2
    exact ⟨t, by rw [hab, List.cons_append, ht]⟩

theorem sepIdx_zero (sep : Str) (c : Char) (rest : Str)
    (h : sepIdx sep (c :: rest) = some 0) : sep.isPrefixOf (c :: rest) = true := by
  unfold sepIdx at h
  by_cases hp : sep.isPrefixOf (c :: rest)
  · exact hp
  · rw [if_neg (by simpa using hp)] at h
    cases he : sepIdx sep rest with
    | none => rw [he] at h; simp at h
    | some m => rw [he] at h; simp at h

theorem jsSplit_headD_nil (sep s : Str) (hsep : sep ≠ [])
    (h : (jsSplit sep s).headD [] = []) : s = [] ∨ sep.isPrefixOf s = true := by
  cases s with
  | nil => exact Or.inl rfl
  | cons c rest =>
    unfold jsSplit at h
    rw [if_neg hsep] at h
    simp only [List.length_cons] at h
    rw [splitGo] at h
    cases he : sepIdx sep (c :: rest) with
    | none => rw [he] at h; simp at h
    | some n =>
      rw [he] at h
      simp only [List.headD_cons] at h
      cases n with
      | zero => exact Or.inr (sepIdx_zero sep c rest he)
      | succ m => rw [List.take_succ_cons] at h; simp at h

theorem dash_first_nil (s : Str)
    (h : (jsSplit dashSep (jsTrim s)).headD [] = []) : jsTrim s = [] := by
  rcases jsSplit_headD_nil dashSep (jsTrim s) (by decide) h with h1 | h1
  · exact h1
  · obtain ⟨t, ht⟩ := isPrefixOf_exists dashSep (jsTrim s) h1
    have heq : jsTrim s = ' ' :: ('-' :: ' ' :: t) := by rw [← ht]; rfl
    have hws := jsTrim_head_not_ws s ' ' _ heq
    exact absurd hws (by decide)

theorem extractCityName_eq (doc : Doc) :
    extractCityName doc = (jsSplit dashSep (textOf doc.locationName)).headD [] := by
  unfold extractCityName
  by_cases h : (jsSplit dashSep (textOf doc.locationName)).headD [] = []
  · rw [if_pos h, h]
    exact dash_first_nil (doc.locationName.getD []) h
  · rw [if_neg h]

theorem weekMap_filterMap_of_ge :
    ∀ (items : List DayItem) (i : Nat), 7 ≤ i →
      (weekMap i items).filterMap id = [] := by
  intro items
  induction items with
  | nil => intro i _; rfl
  | cons item rest ih =>
    intro i hi
    simp only [weekMap]
    rw [if_pos hi, List.filterMap_cons]
    exact ih (i + 1) (Nat.le_succ_of_le hi)

theorem weekMap_filterMap_eq :
    ∀ (items : List DayItem) (i : Nat), i ≤ 7 →
      (weekMap i items).filterMap id = dayDetailsFrom i (items.take (7 - i)) := by
  intro items
  induction items with
  | nil => intro i _; simp [weekMap, dayDetailsFrom]
  | cons item rest ih =>
    intro i hi
    rcases Nat.lt_or_ge i 7 with h7 | h7
    · simp only [weekMap]
      rw [if_neg (Nat.not_le.mpr h7), List.filterMap_cons]
      simp only [id]
      rw [ih (i + 1) h7]
      have hsub : 7 - i = (7 - (i + 1)) + 1 := by omega
      rw [hsub, List.take_succ_cons]
      rfl
    · have : i = 7 := Nat.le_antisymm hi h7
      subst this
      simp only [weekMap]
      rw [if_pos (le_refl 7), List.filterMap_cons]
      rw [weekMap_filterMap_of_ge rest 8 (by omega)]
      simp [dayDetailsFrom]

theorem dayDetailsFrom_length :
    ∀ (i : Nat) (l : List DayItem), (dayDetailsFrom i l).length = l.length := by
  intro i l
  induction l generalizing i with
  | nil => rfl
  | cons item rest ih => simp [dayDetailsFrom, ih]

theorem extractWeeklyForecast_eq (doc : Doc) :
    extractWeeklyForecast doc = dayDetailsFrom 0 (doc.dayItems.take 7) := by
  unfold extractWeeklyForecast
  simpa using weekMap_filterMap_eq doc.dayItems 0 (by omega)

theorem mem_dayDetailsFrom :
    ∀ (l : List DayItem) (i : Nat) (e : WeatherCondition),
      e ∈ dayDetailsFrom i l → ∃ item j, e = extractDayDetails item j := by
  intro l
  induction l with
  | nil => intro i e h; simp [dayDetailsFrom] at h
  | cons item rest ih =>
    intro i e h
    simp only [dayDetailsFrom, List.mem_cons] at h
    rcases h with h | h
    · exact ⟨item, i, h⟩
    · exact ih (i + 1) e h

theorem parseTemperature_zero (t : Str) :
    (parseTemperature t 0).2 = (parseTemperature t 0).1 := by
  unfold parseTemperature
  split_ifs with h1 h2 <;> first | rfl | exact absurd rfl h2

theorem cairoDayDetails_eq (item : DayItem) (i : Nat) :
    cairoDayDetails item i = extractDayDetails item i := by
  unfold cairoDayDetails extractDayDetails parseTemperature
  by_cases h : textOf item.temp = []
  · simp [h]
  · by_cases h0 : i = 0
    · simp [h, h0]
    · by_cases h3 : (textOf item.temp).drop 3 = [] <;> simp [h, h0, h3]

theorem cairoWeekMap_eq :
    ∀ (i : Nat) (items : List DayItem), cairoWeekMap i items = weekMap i items := by
  intro i items
  induction items generalizing i with
  | nil => rfl
  | cons item rest ih =>
    simp only [cairoWeekMap, weekMap, cairoDayDetails_eq, ih]

theorem lookup_mem_values {α β : Type} [BEq α] :
    ∀ (l : List (α × β)) (k : α) (c : β), l.lookup k = some c → c ∈ l.map Prod.snd := by
  intro l
  induction l with
  | nil => intro k c h; simp [List.lookup] at h
  | cons p rest ih =>
    intro k c h
    obtain ⟨a, b⟩ := p
    unfold List.lookup at h
    split at h
    · cases h; simp
    · simpa using Or.inr (ih k c h)

theorem cityCode_values (k : String) (c : String) (h : cityCode k = some c) :
    c ≠ "" ∧ buildUrl k = BBC_WEATHER_BASE_URL ++ c := by
  refine ⟨?_, by unfold buildUrl; rw [h]⟩
  have hmem := lookup_mem_values CITIES k c h
  simp only [CITIES, List.map_cons, List.map_nil, List.mem_cons, List.not_mem_nil,
    or_false] at hmem
  rcases hmem with rfl | rfl | rfl | rfl | rfl | rfl <;> decide

theorem jsSplit_of_no_sep (sep s : Str) (hsep : sep ≠ [])
    (h : sepIdx sep s = none) : jsSplit sep s = [s] := by
  unfold jsSplit
  rw [if_neg hsep]
  cases hl : s.length with
  | zero => rfl
  | succ m => simp only [splitGo, h]

theorem take_three_ne_nil (t : Str) (h : t ≠ []) : t.take 3 ≠ [] := by
  cases t with
  | nil => exact absurd rfl h
  | cons a r => simp [List.take_succ_cons]

theorem parseTemperature_fst (t : Str) (j : Nat) : (parseTemperature t j).1 = t.take 3 := by
  unfold parseTemperature
  split_ifs with h1 h2 <;> simp [h1]

theorem parseTemperature_snd_ne (t : Str) (j : Nat) (h : t ≠ []) :
    (parseTemperature t j).2 ≠ [] := by
  unfold parseTemperature
  split_ifs with h1 h2 h3
  · exact absurd h1 h
  · exact take_three_ne_nil t h
  · exact take_three_ne_nil t h
  · exact h3

theorem extractDayDetails_inv (item : DayItem) (j : Nat) :
    (extractDayDetails item j).highTemp = (extractDayDetails item j).temperature.take 3 ∧
    (∃ rest, (extractDayDetails item j).highTemp ++ rest
      = (extractDayDetails item j).temperature) ∧
    ((extractDayDetails item j).highTemp = [] ↔ (extractDayDetails item j).temperature = []) ∧
    ((extractDayDetails item j).temperature ≠ [] → (extractDayDetails item j).lowTemp ≠ []) := by
  have e1 : (extractDayDetails item j).highTemp
      = (parseTemperature (textOf item.temp) j).1 := rfl
  have e2 : (extractDayDetails item j).temperature = textOf item.temp := rfl
  have e3 : (extractDayDetails item j).lowTemp
      = (parseTemperature (textOf item.temp) j).2 := rfl
  rw [e1, e2, e3, parseTemperature_fst]
  refine ⟨rfl, ⟨(textOf item.temp).drop 3, List.take_append_drop 3 _⟩, ?_, ?_⟩
  · constructor
    · intro h
      by_contra hne
      exact take_three_ne_nil _ hne h
    · intro h
      rw [h]
      rfl
  · intro h
    exact parseTemperature_snd_ne _ j h

theorem logWeatherForCity_ok (load : String → Doc) (transport : Transport) (k : String) :
    (logWeatherForCity load transport k).1 = .ok () := by
  unfold logWeatherForCity
  rcases hf : fetchCityWeather load transport k with ⟨res, logs, reqs⟩
  cases res with
  | error e => rfl
  | ok r =>
    cases hw : r.weekList with
    | nil => simp [hw]
    | cons d rest => simp [hw]

/-! ## Claims -/

/-- C1: the temperature decomposition used by extraction: an empty token
yields empty `highTemp`/`lowTemp`; otherwise `highTemp` is the first
`min(3, length)` characters (a textual slice, not a number); at index 0
`lowTemp = highTemp`; at index `> 0` `lowTemp` is the remainder after the
first 3 characters when non-empty, else `highTemp`.  Concretely:
`"18°11°"` at index 0 gives `("18°", "18°")`, at index 2 gives
`("18°", "11°")`; `"18°"` at index 2 gives `("18°", "18°")`; and the entry
at index 0 of any extracted report has `highTemp = lowTemp`. -/
theorem C1_temperature_decomposition (t : Str) (i : Nat) (doc : Doc) (e : WeatherCondition) :
    (t = [] → parseTemperature t i = ([], [])) ∧
    (t ≠ [] → (parseTemperature t i).1 = t.take 3) ∧
    ((parseTemperature t 0).2 = (parseTemperature t 0).1) ∧
    (0 < i → t.drop 3 ≠ [] → (parseTemperature t i).2 = t.drop 3) ∧
    (0 < i → t.drop 3 = [] → (parseTemperature t i).2 = (parseTemperature t i).1) ∧
    parseTemperature "18°11°".data 0 = ("18°".data, "18°".data) ∧
    parseTemperature "18°11°".data 2 = ("18°".data, "11°".data) ∧
    parseTemperature "18°".data 2 = ("18°".data, "18°".data) ∧
    parseTemperature [] i = ([], []) ∧
    ((extractWeeklyForecast doc).head? = some e → e.highTemp = e.lowTemp) := by
  refine ⟨?_, fun _ => parseTemperature_fst t i, parseTemperature_zero t, ?_, ?_,
    by decide, by decide, by decide, by simp [parseTemperature], ?_⟩
  · intro h
    simp [parseTemperature, h]
  · intro hi h3
    have ht : t ≠ [] := fun he => h3 (by rw [he]; rfl)
    have hi' : i ≠ 0 := by omega
    simp [parseTemperature, ht, hi', h3]
  · intro hi h3
    by_cases ht : t = []
    · simp [parseTemperature, ht]
    · have hi' : i ≠ 0 := by omega
      simp [parseTemperature, ht, hi', h3]
  · intro hhead
    rw [extractWeeklyForecast_eq] at hhead
    cases hitems : doc.dayItems with
    | nil =>
      rw [hitems] at hhead
      simp [dayDetailsFrom] at hhead
    | cons item rest =>
      rw [hitems, List.take_succ_cons] at hhead
      simp only [dayDetailsFrom, List.head?_cons, Option.some.injEq] at hhead
      rw [← hhead]
      exact (parseTemperature_zero (textOf item.temp)).symm

/-- Witness for C1 at `t = "18°11°"`, `i = 2`, and the fixture document. -/
theorem C1_temperature_decomposition_witness :
    ((0 : Nat) < 2 ∧ "18°11°".data.drop 3 ≠ [] ∧
      (parseTemperature "18°11°".data 2).2 = "18°11°".data.drop 3) ∧
    ((extractWeeklyForecast fixtureDoc).head? = some fixtureEntry ∧
      fixtureEntry.highTemp = fixtureEntry.lowTemp) :=
  ⟨⟨by decide, by decide,
      (C1_temperature_decomposition "18°11°".data 2 fixtureDoc fixtureEntry).2.2.2.1
        (by decide) (by decide)⟩,
    ⟨by decide,
      (C1_temperature_decomposition "18°11°".data 2 fixtureDoc
          fixtureEntry).2.2.2.2.2.2.2.2.2 (by decide)⟩⟩

/-- C2: the extracted `weekList` always has length at most 7; it equals the
day details of the first 7 day items in document order (items at position
`≥ 7` are dropped entirely); with 10 day items exactly 7 entries remain. -/
theorem C2_weekList_truncation (doc : Doc) :
    (parseWeatherData doc).weekList.length ≤ 7 ∧
    (parseWeatherData doc).weekList = dayDetailsFrom 0 (doc.dayItems.take 7) ∧
    (doc.dayItems.length = 10 → (parseWeatherData doc).weekList.length = 7) := by
  have hw : (parseWeatherData doc).weekList = dayDetailsFrom 0 (doc.dayItems.take 7) :=
    extractWeeklyForecast_eq doc
  have hlen : (parseWeatherData doc).weekList.length = min 7 doc.dayItems.length := by
    rw [hw, dayDetailsFrom_length, List.length_take]
  refine ⟨?_, hw, ?_⟩
  · rw [hlen]
    omega
  · intro h10
    rw [hlen, h10]
    omega

/-- Witness for C2 at the fixture document with 10 day items. -/
theorem C2_weekList_truncation_witness :
    fixtureDoc10.dayItems.length = 10 ∧ (parseWeatherData fixtureDoc10).weekList.length = 7 :=
  ⟨by decide, (C2_weekList_truncation fixtureDoc10).2.2 (by decide)⟩

/-- C3: the extracted `city` is the first `" - "`-separated segment of the
trimmed location-name text; the whole trimmed text when the separator is
absent; the empty string when the element is absent.  Concretely,
`"London - Forecast"` gives `"London"` and `"Brasilia"` gives
`"Brasilia"`. -/
theorem C3_city_name (doc : Doc) (txt : Str) :
    (doc.locationName = none → (parseWeatherData doc).city = []) ∧
    (doc.locationName = some txt →
      (parseWeatherData doc).city = (jsSplit dashSep (jsTrim txt)).headD []) ∧
    (doc.locationName = some txt → sepIdx dashSep (jsTrim txt) = none →
      (parseWeatherData doc).city = jsTrim txt) ∧
    (parseWeatherData ⟨some "London - Forecast".data, []⟩).city = "London".data ∧
    (parseWeatherData ⟨some "Brasilia".data, []⟩).city = "Brasilia".data := by
  have hc : (parseWeatherData doc).city = extractCityName doc := rfl
  refine ⟨?_, ?_, ?_, by decide, by decide⟩
  · intro h
    rw [hc, extractCityName_eq, h]
    rfl
  · intro h
    rw [hc, extractCityName_eq, h]
    rfl
  · intro h hsep
    rw [hc, extractCityName_eq, h]
    show (jsSplit dashSep (jsTrim txt)).headD [] = jsTrim txt
    rw [jsSplit_of_no_sep dashSep (jsTrim txt) (by decide) hsep]
    rfl

/-- Witness for C3 at the fixture document (`"Cairo - Weather"`). -/
theorem C3_city_name_witness :
    fixtureDoc.locationName = some "Cairo - Weather".data ∧
    (parseWeatherData fixtureDoc).city
      = (jsSplit dashSep (jsTrim "Cairo - Weather".data)).headD [] :=
  ⟨rfl, (C3_city_name fixtureDoc "Cairo - Weather".data).2.1 rfl⟩

/-- C4: extraction is a total function of the (parsed) input — the model
`parseWeatherData` is total by construction, mirroring that every structural
lookup in the source degrades rather than throws — and every missing
structural anchor yields empty-string fields: no location-name element gives
`city = ""`, and missing day-item sub-elements give empty `day`,
`shortForecast`, `temperature`, `highTemp`, `lowTemp`. -/
theorem C4_extraction_total_degrades (doc : Doc) (item : DayItem) (i : Nat) :
    (doc.locationName = none → (parseWeatherData doc).city = []) ∧
    (item.title = none → (extractDayDetails item i).day = []) ∧
    (item.description = none → (extractDayDetails item i).shortForecast = []) ∧
    (item.temp = none → (extractDayDetails item i).temperature = []
      ∧ (extractDayDetails item i).highTemp = []
      ∧ (extractDayDetails item i).lowTemp = []) := by
  refine ⟨?_, ?_, ?_, ?_⟩
  · intro h
    rw [show (parseWeatherData doc).city = extractCityName doc from rfl,
      extractCityName_eq, h]
    rfl
  · intro h
    show textOf item.title = []
    rw [h]
    rfl
  · intro h
    show textOf item.description = []
    rw [h]
    rfl
  · intro h
    refine ⟨?_, ?_, ?_⟩
    · show textOf item.temp = []
      rw [h]
      rfl
    · show (parseTemperature (textOf item.temp) i).1 = []
      rw [h]
      simp [parseTemperature, textOf, jsTrim]
    · show (parseTemperature (textOf item.temp) i).2 = []
      rw [h]
      simp [parseTemperature, textOf, jsTrim]

/-- Witness for C4 at a document with no location-name element and a day
item with no sub-elements. -/
theorem C4_extraction_total_degrades_witness :
    (fixtureDocEmpty.locationName = none ∧ (parseWeatherData fixtureDocEmpty).city = []) ∧
    ((⟨none, none, none⟩ : DayItem).temp = none ∧
      (extractDayDetails ⟨none, none, none⟩ 0).highTemp = []) :=
  ⟨⟨rfl, (C4_extraction_total_degrades fixtureDocEmpty ⟨none, none, none⟩ 0).1 rfl⟩,
    ⟨rfl, ((C4_extraction_total_degrades fixtureDocEmpty
      ⟨none, none, none⟩ 0).2.2.2 rfl).2.1⟩⟩

/-- C5 counterexample: at the out-of-catalog identifier `"paris"` the
lookup yields `undefined`, yet `fetchCityWeather` does not fail before the
network: it issues exactly one transport request (to
`base_url + "undefined"`) and surfaces the transport's own error — there is
no `LookupError` and the transport sees one call, not zero. -/
theorem C5_catalog_counterexample :
    cityCode "paris" = none ∧
    (fetchCityWeather fixtureLoadEmpty failTransport "paris").2.2
      = [BBC_WEATHER_BASE_URL ++ "undefined"] ∧
    (fetchCityWeather fixtureLoadEmpty failTransport "paris").2.2.length = 1 ∧
    (fetchCityWeather fixtureLoadEmpty failTransport "paris").1
      = .error (.axios "ECONNREFUSED") := by
  refine ⟨by decide, rfl, rfl, rfl⟩

/-- C5 amended: for every identifier in the catalog the lookup returns a
non-empty location code and the single request URL is `base_url + code`;
for an identifier outside the catalog (reachable only past the TypeScript
type checker, which is what excludes unknown keys — there is no runtime
`LookupError`) one request to `base_url + "undefined"` is issued. -/
theorem C5_catalog_lookup (load : String → Doc) (transport : Transport) (k c : String) :
    (cityCode k = some c → c ≠ "" ∧
      (fetchCityWeather load transport k).2.2 = [BBC_WEATHER_BASE_URL ++ c]) ∧
    (cityCode k = none →
      (fetchCityWeather load transport k).2.2 = [BBC_WEATHER_BASE_URL ++ "undefined"]) := by
  have hreq : (fetchCityWeather load transport k).2.2 = [buildUrl k] := by
    simp only [fetchCityWeather]
    cases transport (buildUrl k) <;> rfl
  constructor
  · intro h
    obtain ⟨hne, hurl⟩ := cityCode_values k c h
    exact ⟨hne, by rw [hreq, hurl]⟩
  · intro h
    rw [hreq]
    unfold buildUrl
    rw [h]

/-- Witness for C5 (amended) at the catalog key `"cairo"` and the unknown
key `"paris"`. -/
theorem C5_catalog_lookup_witness :
    (cityCode "cairo" = some "360630" ∧ "360630" ≠ "" ∧
      (fetchCityWeather fixtureLoadEmpty okTransport "cairo").2.2
        = [BBC_WEATHER_BASE_URL ++ "360630"]) ∧
    (cityCode "paris" = none ∧
      (fetchCityWeather fixtureLoadEmpty okTransport "paris").2.2
        = [BBC_WEATHER_BASE_URL ++ "undefined"]) :=
  ⟨⟨by decide,
      (C5_catalog_lookup fixtureLoadEmpty okTransport "cairo" "360630").1 (by decide) |>.1,
      (C5_catalog_lookup fixtureLoadEmpty okTransport "cairo" "360630").1 (by decide) |>.2⟩,
    ⟨by decide,
      (C5_catalog_lookup fixtureLoadEmpty okTransport "paris" "").2 (by decide)⟩⟩

/-- C6: whenever the transport fails (the rejection `axios.get` produces for
connection refused, DNS failure or a non-success status), `fetchCityWeather`
logs the error with the distinguishing `Network Error:` label, rethrows the
same error to the caller, returns no report, and issues exactly one request
(no retry). -/
theorem C6_network_error_propagation (load : String → Doc) (transport : Transport)
    (k m : String) (h : transport (buildUrl k) = .error (.axios m)) :
    fetchCityWeather load transport k
      = (.error (.axios m), ["Network Error: " ++ m], [buildUrl k]) := by
  simp only [fetchCityWeather]
  rw [h]
  rfl

/-- Witness for C6 at a connection-refused transport and the key
`"london"`. -/
theorem C6_network_error_propagation_witness :
    failTransport (buildUrl "london") = .error (.axios "ECONNREFUSED") ∧
    fetchCityWeather fixtureLoadEmpty failTransport "london"
      = (.error (.axios "ECONNREFUSED"),
          ["Network Error: " ++ "ECONNREFUSED"], [buildUrl "london"]) :=
  ⟨rfl, C6_network_error_propagation fixtureLoadEmpty failTransport "london"
    "ECONNREFUSED" rfl⟩

/-- C7 counterexample: with a failing transport, the fetch stage of
`logWeatherForCity` fails, yet the utility's caller receives a normal
resolution (`ok ()`), not an error — the failure is logged and swallowed
inside the utility, contradicting the claim that it is surfaced
(rethrown or returned as an error value) to the caller. -/
theorem C7_error_surfacing_counterexample :
    failTransport (buildUrl "cairo") = .error (.axios "ECONNREFUSED") ∧
    (logWeatherForCity fixtureLoadEmpty failTransport "cairo").1 = .ok () := by
  exact ⟨rfl, rfl⟩

/-- C7 amended: when the fetch stage fails, `logWeatherForCity` logs the
error (the `handleError` line followed by the `Failed to fetch weather
for ...` line), produces no report or summary, and swallows the error:
the utility always resolves normally, for every input. -/
theorem C7_error_swallowed (load : String → Doc) (transport : Transport)
    (k : String) (e : JsError) (h : transport (buildUrl k) = .error e) :
    logWeatherForCity load transport k = (.ok (), [handleError e, failedLine k]) ∧
    (∀ (load' : String → Doc) (transport' : Transport) (k' : String),
      (logWeatherForCity load' transport' k').1 = .ok ()) := by
  constructor
  · simp only [logWeatherForCity, fetchCityWeather]
    rw [h]
    rfl
  · intro load' transport' k'
    exact logWeatherForCity_ok load' transport' k'

/-- Witness for C7 (amended) at a connection-refused transport and the key
`"cairo"`. -/
theorem C7_error_swallowed_witness :
    failTransport (buildUrl "cairo") = .error (.axios "ECONNREFUSED") ∧
    logWeatherForCity fixtureLoadEmpty failTransport "cairo"
      = (.ok (), [handleError (.axios "ECONNREFUSED"), failedLine "cairo"]) :=
  ⟨rfl, (C7_error_swallowed fixtureLoadEmpty failTransport "cairo"
    (.axios "ECONNREFUSED") rfl).1⟩

/-- C8: the duplicate extraction implementations are equivalent — for every
parsed markup, the inline extraction of `getCairoWeather` produces, field
for field, the same report as `BBCWeatherScraper.parseWeatherData`. -/
theorem C8_duplicate_implementations_equivalent (doc : Doc) :
    cairoExtract doc = parseWeatherData doc := by
  unfold cairoExtract parseWeatherData extractWeeklyForecast
  rw [extractCityName_eq, cairoWeekMap_eq]

/-- C9: every entry of any extracted report has `highTemp` equal to the
first `min(3, length)` characters of its `temperature` token — so
`highTemp` is a prefix of `temperature` and is empty exactly when
`temperature` is — and `lowTemp` is non-empty whenever `temperature`
is non-empty. -/
theorem C9_entry_invariants (doc : Doc) (e : WeatherCondition)
    (h : e ∈ (parseWeatherData doc).weekList) :
    e.highTemp = e.temperature.take 3 ∧
    (∃ rest, e.highTemp ++ rest = e.temperature) ∧
    (e.highTemp = [] ↔ e.temperature = []) ∧
    (e.temperature ≠ [] → e.lowTemp ≠ []) := by
  have hw : (parseWeatherData doc).weekList = dayDetailsFrom 0 (doc.dayItems.take 7) :=
    extractWeeklyForecast_eq doc
  rw [hw] at h
  obtain ⟨item, j, rfl⟩ := mem_dayDetailsFrom _ 0 e h
  exact extractDayDetails_inv item j

/-- Witness for C9 at the fixture document's first entry. -/
theorem C9_entry_invariants_witness :
    fixtureEntry ∈ (parseWeatherData fixtureDoc).weekList ∧
    (fixtureEntry.highTemp = fixtureEntry.temperature.take 3 ∧
      (∃ rest, fixtureEntry.highTemp ++ rest = fixtureEntry.temperature) ∧
      (fixtureEntry.highTemp = [] ↔ fixtureEntry.temperature = []) ∧
      (fixtureEntry.temperature ≠ [] → fixtureEntry.lowTemp ≠ [])) :=
  ⟨by decide, C9_entry_invariants fixtureDoc fixtureEntry (by decide)⟩

/-- C10: on markup with no forecast day items, extraction returns an empty
`weekList`; `logWeatherForCity` then throws internally on the unguarded
`weekList[0]` access, catches it, logs the failure line after the report
line, and resolves (its result is always a normal resolution, never a
rejection, for every input); `getCairoWeather` likewise catches its
internal failure and resolves to `undefined` (`none`) with the `ERROR`
log instead of returning a report. -/
theorem C10_empty_weekList_swallowed (load : String → Doc) (transport : Transport)
    (body : String)
    (hT : transport (BBC_WEATHER_BASE_URL ++ "292968") = .ok body)
    (hD : (load body).dayItems = []) :
    (parseWeatherData (load body)).weekList = [] ∧
    (∀ (load' : String → Doc) (transport' : Transport) (k' : String),
      (logWeatherForCity load' transport' k').1 = .ok ()) ∧
    logWeatherForCity load transport "abuDhabi"
      = (.ok (), [reportLine (parseWeatherData (load body)), failedLine "abuDhabi"]) ∧
    getCairoWeather load transport = (none, ["ERROR"]) := by
  have hurl : buildUrl "abuDhabi" = BBC_WEATHER_BASE_URL ++ "292968" := by decide
  have hwk : (parseWeatherData (load body)).weekList = [] := by
    show (weekMap 0 (load body).dayItems).filterMap id = []
    rw [hD]
    rfl
  refine ⟨hwk, fun l t k => logWeatherForCity_ok l t k, ?_, ?_⟩
  · simp [logWeatherForCity, fetchCityWeather, hurl, hT, hwk]
  · have hcw : (cairoExtract (load body)).weekList = [] := by
      show (cairoWeekMap 0 (load body).dayItems).filterMap id = []
      rw [hD]
      rfl
    simp [getCairoWeather, hT, hcw]

/-- Witness for C10 at a transport returning a fixed page whose parsed
document has no day items. -/
theorem C10_empty_weekList_swallowed_witness :
    okTransport (BBC_WEATHER_BASE_URL ++ "292968") = .ok "page" ∧
    (fixtureLoadEmpty "page").dayItems = [] ∧
    (parseWeatherData (fixtureLoadEmpty "page")).weekList = [] ∧
    getCairoWeather fixtureLoadEmpty okTransport = (none, ["ERROR"]) :=
  ⟨rfl, rfl,
    (C10_empty_weekList_swallowed fixtureLoadEmpty okTransport "page" rfl rfl).1,
    (C10_empty_weekList_swallowed fixtureLoadEmpty okTransport "page" rfl rfl).2.2.2⟩
